import Mathlib

/-!
Verification of the reliability-guardrails deployment pipeline.

Shallow embedding of the three core components:
* `src/decision/decision_engine.py` — policy loading, condition matching,
  first-match policy selection, fallback decision and exit codes;
* `src/slo/slo_engine.py` — availability / error-budget / burn-rate evaluation;
* `src/cost/cost_collector.py` — week-over-week cost windows and spike detection.

Python values flowing through the signal map and policy conditions are modelled
by `Val`; Python exceptions (TypeError on bad comparisons, KeyError on missing
metric fields, ZeroDivisionError) are modelled by `Option`, with `Option.none`
standing for a raised exception.  Python's `sorted` (a stable sort) is modelled
by `List.mergeSort`, which is stable.  Python's `round(x, n)` on floats is
modelled as nearest-integer rounding of the exact rational scaled by `10^n`.
-/

namespace Guardrails

/-- Scalar values stored in the signal map and in policy-condition targets:
Python floats/ints (as exact rationals), strings, booleans, and `None`. -/
inductive Val where
  | vnum (q : ℚ)
  | vstr (s : String)
  | vbool (b : Bool)
  | vnone
deriving DecidableEq, Repr

/-- A condition target (`rule.get("value")`) may be a scalar or a list
(the latter used with the `in` operator). -/
inductive CVal where
  | scalar (v : Val)
  | vlist (vs : List Val)
deriving DecidableEq, Repr

/-- Numeric view of a Python value: Python booleans are integers
(`True == 1`, `False == 0`), so they participate in numeric comparisons. -/
def Val.toNum : Val → Option ℚ
  | .vnum q => some q
  | .vbool b => some (if b then 1 else 0)
  | _ => Option.none

/-- Python `a < b` on scalar values: defined between two numbers (booleans
count as numbers) or two strings; any other combination raises TypeError,
modelled as `Option.none`. -/
def pyLt (a b : Val) : Option Bool :=
  match a, b with
  | .vstr x, .vstr y => some (decide (x < y))
  | _, _ =>
    match a.toNum, b.toNum with
    | some x, some y => some (decide (x < y))
    | _, _ => Option.none

/-- Python `a <= b` on scalar values, with the same definedness as `pyLt`. -/
def pyLe (a b : Val) : Option Bool :=
  match a, b with
  | .vstr x, .vstr y => some (decide (x ≤ y))
  | _, _ =>
    match a.toNum, b.toNum with
    | some x, some y => some (decide (x ≤ y))
    | _, _ => Option.none

/-- Python `a == b` on scalar values: never raises; values of incomparable
types are simply unequal.  `True == 1` holds because booleans are integers. -/
def pyEq (a b : Val) : Bool :=
  match a, b with
  | .vstr x, .vstr y => decide (x = y)
  | .vnone, .vnone => true
  | _, _ =>
    match a.toNum, b.toNum with
    | some x, some y => decide (x = y)
    | _, _ => false

/-- Substring test, modelling Python `s in hay` for strings. -/
def strContains (hay pat : String) : Bool :=
  pat.isEmpty || decide ((hay.splitOn pat).length ≥ 2)

/-- `value < target` where the target comes from a condition: comparing a
scalar signal with a list target raises TypeError. -/
def cvalLt (v : Val) : CVal → Option Bool
  | .scalar w => pyLt v w
  | .vlist _ => Option.none

/-- `value <= target`, list targets raise as in `cvalLt`. -/
def cvalLe (v : Val) : CVal → Option Bool
  | .scalar w => pyLe v w
  | .vlist _ => Option.none

/-- `value > target` (Python evaluates this as its own comparison;
for the scalar types at hand it coincides with `target < value`). -/
def cvalGt (v : Val) : CVal → Option Bool
  | .scalar w => pyLt w v
  | .vlist _ => Option.none

/-- `value >= target`. -/
def cvalGe (v : Val) : CVal → Option Bool
  | .scalar w => pyLe w v
  | .vlist _ => Option.none

/-- `value == target`: scalar-vs-list is `False` in Python, never raises. -/
def cvalEq (v : Val) : CVal → Bool
  | .scalar w => pyEq v w
  | .vlist _ => false

/-- Python `value in target`: elementwise equality for a list target,
substring test for a string target and string value; any other target
(number, boolean, `None`, or a string target with a non-string value)
raises TypeError. -/
def pyIn (v : Val) : CVal → Option Bool
  | .vlist ts => some (ts.any (fun t => pyEq v t))
  | .scalar (.vstr hay) =>
    match v with
    | .vstr s => some (strContains hay s)
    | _ => Option.none
  | .scalar _ => Option.none

/-- One comparison rule of a policy condition.  In the source a rule is a
dict; a missing `"operator"` key defaults to `"eq"` and a missing `"value"`
key yields Python `None` (`CVal.scalar Val.vnone`), both resolved here at
construction time (`rule.get("operator", "eq")`, `rule.get("value")`). -/
structure Cond where
  operator : String
  value : CVal
deriving DecidableEq, Repr

/-- A policy record (`config/policies.yaml` entry).  `priority` and
`delay_minutes` are optional keys read with defaults (`p.get("priority", 99)`,
`p.get("delay_minutes", 0)`); `conditions` is `policy.get("conditions", {})`
with the dict modelled as an insertion-ordered association list.  The
remaining keys are accessed unconditionally by the engine and are therefore
required fields. -/
structure Policy where
  id : String
  name : String
  priority : Option Int
  action : String
  conditions : List (String × Cond)
  reason : String
  remediation : String
  delay_minutes : Option Int
deriving DecidableEq, Repr

/-- The flat signal map passed to `_matches` (a Python dict: keys unique,
insertion ordered). -/
def Signals : Type := List (String × Val)

/-- Raw association-list lookup (`dict.get`). -/
def sigGet : List (String × Val) → String → Option Val
  | [], _ => Option.none
  | (k, v) :: rest, key => if k = key then some v else sigGet rest key

/-- `signals.get(key)` followed by the source's `value is None` test: a
stored `None` is indistinguishable from a missing key. -/
def sigVal (s : List (String × Val)) (key : String) : Option Val :=
  match sigGet s key with
  | some .vnone => Option.none
  | some v => some v
  | Option.none => Option.none

/-- The operator-dispatch chain inside `_matches` for a single condition:
`some true` means the condition is satisfied (the loop continues), `some
false` means the policy fails to match, `Option.none` means a raised
TypeError.  An operator matching none of the seven guards falls through the
chain, i.e. the condition is skipped. -/
def applyCond (op : String) (v : Val) (t : CVal) : Option Bool :=
  if op = "lt" then cvalLt v t
  else if op = "lte" then cvalLe v t
  else if op = "gt" then cvalGt v t
  else if op = "gte" then cvalGe v t
  else if op = "eq" then some (cvalEq v t)
  else if op = "neq" then some (!cvalEq v t)
  else if op = "in" then pyIn v t
  else some true

/-- The condition loop of `DecisionEngine._matches`. -/
def matchesConds (signals : List (String × Val)) : List (String × Cond) → Option Bool
  | [] => some true
  | (key, rule) :: rest =>
    match sigVal signals key with
    | Option.none => some false
    | some v =>
      match applyCond rule.operator v rule.value with
      | Option.none => Option.none
      | some false => some false
      | some true => matchesConds signals rest

/-- `DecisionEngine._matches`: an empty condition set matches immediately
(catch-all), otherwise every condition must be satisfied. -/
def matchesPolicy (p : Policy) (signals : List (String × Val)) : Option Bool :=
  if p.conditions.isEmpty then some true else matchesConds signals p.conditions

/-- The sort key used by `_load_policies`: `p.get("priority", 99)`. -/
def prio (p : Policy) : Int := p.priority.getD 99

/-- Boolean comparison handed to the stable sort. -/
def prioLE (a b : Policy) : Bool := decide (prio a ≤ prio b)

/-- `DecisionEngine._load_policies`: `sorted(policies, key=priority)`;
Python's `sorted` is stable, modelled by the stable `List.mergeSort`. -/
def loadPolicies (ps : List Policy) : List Policy := ps.mergeSort prioLE

/-- The policy loop of `DecisionEngine.evaluate`: every policy is evaluated
(for the audit trace), the first match is retained.  The outer `Option` is
`Option.none` when any `_matches` call raises. -/
def scanPolicies (signals : List (String × Val)) : List Policy → Option (Option Policy)
  | [] => some Option.none
  | p :: rest =>
    match matchesPolicy p signals with
    | Option.none => Option.none
    | some m =>
      match scanPolicies signals rest with
      | Option.none => Option.none
      | some found => some (if m then some p else found)

/-- Decision fields produced by `DecisionEngine.evaluate` (the `slo`, `cost`
and `evaluated_policies` evidence fields carry the evaluator outputs and the
match trace verbatim and are not modelled). -/
structure DecisionResult where
  action : String
  policy_id : String
  policy_name : String
  reason : String
  remediation : String
  delay_minutes : Int
deriving DecidableEq, Repr

/-- Construction of the result from the matched policy
(`matched_policy.get("delay_minutes", 0)`). -/
def decisionOf (p : Policy) : DecisionResult :=
  { action := p.action
    policy_id := p.id
    policy_name := p.name
    reason := p.reason
    remediation := p.remediation
    delay_minutes := p.delay_minutes.getD 0 }

/-- The synthesized fallback policy used when no policy matched. -/
def fallbackPolicy : Policy :=
  { id := "P-FALLBACK"
    name := "Fallback allow"
    priority := some 999
    action := "ALLOW"
    conditions := []
    reason := "No matching policy found — defaulting to ALLOW"
    remediation := "Review your policies.yaml configuration."
    delay_minutes := some 0 }

/-- `DecisionEngine.evaluate`, with the signal map abstracted as an input
(the source builds it from the two evaluator results). -/
def DecisionEngine.evaluate (ps : List Policy) (signals : List (String × Val)) :
    Option DecisionResult :=
  match scanPolicies signals (loadPolicies ps) with
  | Option.none => Option.none
  | some Option.none => some (decisionOf fallbackPolicy)
  | some (some p) => some (decisionOf p)

/-- `DecisionResult.exit_code`: a dict lookup
`{"ALLOW": 0, "WARN": 0, "DELAY": 1, "BLOCK": 2}.get(action, 2)`. -/
def DecisionResult.exit_code (d : DecisionResult) : Int :=
  if d.action = "ALLOW" then 0
  else if d.action = "WARN" then 0
  else if d.action = "DELAY" then 1
  else if d.action = "BLOCK" then 2
  else 2

/-- Modelled from the spec for the refinement comparison in C1: the ordering
"ascending by priority with ties broken by original declaration order". -/
def specOrder (a b : Nat × Policy) : Bool :=
  decide (prio a.2 < prio b.2) || (decide (prio a.2 = prio b.2) && decide (a.1 ≤ b.1))

/-- Modelled from the spec for the refinement comparison in C1: "the first
matching policy after sorting the policies ascending by priority with ties
broken by original declaration order". -/
def specWinner (ps : List Policy) (signals : List (String × Val)) : Option Policy :=
  (((ps.enum).mergeSort specOrder).map Prod.snd).find?
    (fun p => matchesPolicy p signals == some true)

/-! ## SLO engine (`src/slo/slo_engine.py`) -/

/-- Python `round(x, 6)` modelled on exact rationals. -/
def round6 (q : ℚ) : ℚ := ((round (q * 1000000) : ℤ) : ℚ) / 1000000

/-- Python `round(x, 2)` modelled on exact rationals. -/
def round2 (q : ℚ) : ℚ := ((round (q * 100) : ℤ) : ℚ) / 100

/-- `config["burn_rate"]["thresholds"]`; each key is read with a default
(`burn_cfg.get("critical", 10.0)` etc.). -/
structure BurnCfg where
  critical : Option ℚ
  high : Option ℚ
  medium : Option ℚ
deriving DecidableEq, Repr

/-- The SLO configuration keys the engine reads unconditionally
(`slos["availability"]["target"]`, `slos["latency"]["p95_threshold_ms"]`)
plus the optional burn-rate threshold table. -/
structure SLOConfig where
  availability_target : ℚ
  p95_threshold_ms : ℚ
  burn : BurnCfg
deriving DecidableEq, Repr

/-- `metrics["latency_percentiles"]`: `p95_ms` is read unconditionally,
`p99_ms` falls back to `p99` and then to `p95_ms`. -/
structure LatencyPercentiles where
  p95_ms : Option ℚ
  p99_ms : Option ℚ
  p99 : Option ℚ
deriving DecidableEq, Repr

/-- The telemetry snapshot (`data/metrics.json`).  Every field is optional
in the JSON; `Option.none` marks an absent key. -/
structure Metrics where
  total_requests : Option ℤ
  failed_requests : Option ℤ
  latency_percentiles : Option LatencyPercentiles
  hourly_burn_rate : Option (List ℚ)
deriving DecidableEq, Repr

/-- The evaluated SLO signals (the `details` metadata dict is not modelled). -/
structure SLOResult where
  availability_pct : ℚ
  error_budget_pct : ℚ
  burn_rate : String
  burn_rate_value : ℚ
  latency_p95_ms : ℚ
  latency_p99_ms : ℚ
  latency_compliant : Bool
  availability_compliant : Bool
deriving DecidableEq, Repr

/-- `recent_burn`: `sum(hourly_rates[-3:]) / min(3, len(hourly_rates))`. -/
def recentBurn (hourly : List ℚ) : ℚ :=
  (hourly.drop (hourly.length - 3)).sum / ((min 3 hourly.length : ℕ) : ℚ)

/-- `lat.get("p99_ms", lat.get("p99", p95_ms))`. -/
def latP99 (lat : LatencyPercentiles) (p95 : ℚ) : ℚ :=
  match lat.p99_ms with
  | some v => v
  | Option.none =>
    match lat.p99 with
    | some v => v
    | Option.none => p95

/-- The burn-rate classification ladder of `SLOEngine.evaluate`: the first
satisfied rule wins. -/
def burnLabel (critical_thr high_thr medium_thr recent_burn error_budget_pct : ℚ) :
    String :=
  if critical_thr ≤ recent_burn ∨ error_budget_pct < 10 then "critical"
  else if high_thr ≤ recent_burn ∨ error_budget_pct < 20 then "high"
  else if medium_thr ≤ recent_burn ∨ error_budget_pct < 50 then "medium"
  else "low"

/-- The arithmetic core of `SLOEngine.evaluate`, once the required metric
fields have been extracted (every division below is guarded by the source
itself; the wrapper has already excluded an empty burn series). -/
def sloCore (cfg : SLOConfig) (total failed : ℤ) (hourly : List ℚ) (p95 p99 : ℚ) :
    SLOResult :=
  let success : ℤ := max 0 (total - failed)
  let availability_pct : ℚ :=
    if 0 < total then round6 (((success : ℚ) / (total : ℚ)) * 100) else 100
  let target := cfg.availability_target
  let allowed_fail_pct : ℚ := 100 - target
  let actual_fail_pct : ℚ := 100 - availability_pct
  let consumed_pct : ℚ :=
    if 0 < allowed_fail_pct then (actual_fail_pct / allowed_fail_pct) * 100
    else if 0 < failed then 100 else 0
  let error_budget_pct := round2 (max 0 (100 - consumed_pct))
  let recent_burn := recentBurn hourly
  let critical_thr := cfg.burn.critical.getD 10
  let high_thr := cfg.burn.high.getD 5
  let medium_thr := cfg.burn.medium.getD 2
  let burn_label : String :=
    burnLabel critical_thr high_thr medium_thr recent_burn error_budget_pct
  { availability_pct := availability_pct
    error_budget_pct := error_budget_pct
    burn_rate := burn_label
    burn_rate_value := round2 recent_burn
    latency_p95_ms := p95
    latency_p99_ms := p99
    latency_compliant := decide (p95 ≤ cfg.p95_threshold_ms)
    availability_compliant := decide (target ≤ availability_pct) }

/-- `SLOEngine.evaluate`.  `Option.none` models a raised exception: KeyError
on a missing `total_requests`, `failed_requests`, `latency_percentiles` or
`p95_ms`, and ZeroDivisionError when the burn series is empty
(`avg_burn = sum(hourly_rates) / len(hourly_rates)`).  A missing
`hourly_burn_rate` key does not raise; it is read with a default:
`metrics.get("hourly_burn_rate", [1.0])`. -/
def SLOEngine.evaluate (cfg : SLOConfig) (m : Metrics) : Option SLOResult :=
  match m.total_requests with
  | Option.none => Option.none
  | some total =>
  match m.failed_requests with
  | Option.none => Option.none
  | some failed =>
    if (m.hourly_burn_rate.getD [1]).isEmpty then Option.none
    else
      match m.latency_percentiles with
      | Option.none => Option.none
      | some lat =>
      match lat.p95_ms with
      | Option.none => Option.none
      | some p95 =>
        some (sloCore cfg total failed (m.hourly_burn_rate.getD [1]) p95 (latP99 lat p95))

/-! ## Cost collector (`src/cost/cost_collector.py`) -/

/-- One `{date, cost}` observation of `data/cost.json`. -/
structure DailyCost where
  date : String
  cost : ℚ
deriving DecidableEq, Repr

/-- The cost input: the daily series and the monthly budget
(`data.get("budget_usd_monthly", 0)`, resolved here). -/
structure CostData where
  daily_costs : List DailyCost
  budget_usd_monthly : ℚ
deriving DecidableEq, Repr

/-- The evaluated cost signals (`service`, `daily_costs` echo and `details`
metadata are not modelled). -/
structure CostResult where
  current_week_avg_usd : ℚ
  previous_week_avg_usd : ℚ
  wow_change_pct : ℚ
  trend : String
  spike_detected : Bool
  budget_usd : ℚ
  mtd_spend_usd : ℚ
  budget_utilisation_pct : ℚ
deriving DecidableEq, Repr

/-- Date comparison for `sorted(daily, key=lambda d: d["date"])`. -/
def dateLE (a b : DailyCost) : Bool := decide (a.date ≤ b.date)

/-- `prev_week = amounts[-14:-7] if len(amounts) >= 14 else amounts[: len(amounts) // 2]`. -/
def prevWindow (amounts : List ℚ) : List ℚ :=
  if 14 ≤ amounts.length then (amounts.drop (amounts.length - 14)).take 7
  else amounts.take (amounts.length / 2)

/-- `curr_week = amounts[-7:] if len(amounts) >= 7 else amounts[len(amounts) // 2 :]`. -/
def currWindow (amounts : List ℚ) : List ℚ :=
  if 7 ≤ amounts.length then amounts.drop (amounts.length - 7)
  else amounts.drop (amounts.length / 2)

/-- `sum(w) / len(w) if w else 0.0`. -/
def avgOf (w : List ℚ) : ℚ := if w.isEmpty then 0 else w.sum / (w.length : ℚ)

/-- `wow_pct = round(((curr_avg - prev_avg) / prev_avg) * 100, 2) if prev_avg > 0 else 0.0`. -/
def wowOf (prev_avg curr_avg : ℚ) : ℚ :=
  if 0 < prev_avg then round2 (((curr_avg - prev_avg) / prev_avg) * 100) else 0

/-- The trend ladder: `spiking` / `rising` / `falling` / `stable`. -/
def trendOf (warnThr blockThr wow : ℚ) : String :=
  if blockThr ≤ wow then "spiking"
  else if warnThr ≤ wow then "rising"
  else if wow ≤ -10 then "falling"
  else "stable"

/-- The body of `CostCollector.evaluate` after the date sort, on the
extracted amounts.  The computation is total: every division is guarded by
the source itself. -/
def evaluateAmounts (warnThr blockThr : ℚ) (amounts : List ℚ) (budget : ℚ) :
    CostResult :=
  let prev_avg := avgOf (prevWindow amounts)
  let curr_avg := avgOf (currWindow amounts)
  let wow := wowOf prev_avg curr_avg
  let mtd := round2 amounts.sum
  { current_week_avg_usd := round2 curr_avg
    previous_week_avg_usd := round2 prev_avg
    wow_change_pct := wow
    trend := trendOf warnThr blockThr wow
    spike_detected := decide (warnThr ≤ wow)
    budget_usd := budget
    mtd_spend_usd := mtd
    budget_utilisation_pct := if 0 < budget then round2 ((mtd / budget) * 100) else 0 }

/-- `CostCollector.evaluate`: stable sort by date, extract the amounts, then
the windowed computation.  `warnThr` / `blockThr` are the
`COST_WARN_PCT` / `COST_BLOCK_PCT` configuration (defaults 20 / 30). -/
def CostCollector.evaluate (warnThr blockThr : ℚ) (data : CostData) : CostResult :=
  evaluateAmounts warnThr blockThr
    ((data.daily_costs.mergeSort dateLE).map DailyCost.cost)
    data.budget_usd_monthly

/-! ## Concrete inputs used by witnesses and counterexamples -/

/-- A blocking policy at priority 1 with one real condition. -/
def pA : Policy :=
  { id := "P1", name := "Block on exhausted budget", priority := some 1
    action := "BLOCK"
    conditions := [("error_budget_pct", ⟨"lt", CVal.scalar (Val.vnum 10)⟩)]
    reason := "budget exhausted", remediation := "halt deploys"
    delay_minutes := Option.none }

/-- A catch-all policy at priority 5. -/
def pB : Policy :=
  { id := "P2", name := "Default allow", priority := some 5
    action := "ALLOW", conditions := []
    reason := "ok", remediation := "none needed"
    delay_minutes := Option.none }

/-- A policy whose only condition carries an operator outside the seven
known ones. -/
def pUnknownOp : Policy :=
  { id := "P3", name := "Unknown operator", priority := some 2
    action := "WARN"
    conditions := [("error_budget_pct", ⟨"approx", CVal.scalar (Val.vnum 10)⟩)]
    reason := "r", remediation := "m"
    delay_minutes := Option.none }

/-- A policy referencing a signal key that the signal map lacks. -/
def pMissingKey : Policy :=
  { id := "P4", name := "Missing key", priority := some 3
    action := "DELAY"
    conditions := [("not_a_signal", ⟨"gte", CVal.scalar (Val.vnum 1)⟩)]
    reason := "r", remediation := "m"
    delay_minutes := some 30 }

/-- A small signal map: the error budget is 5 %. -/
def sig0 : List (String × Val) := [("error_budget_pct", Val.vnum 5)]

/-- A standard SLO configuration: 99.9 % availability target, 500 ms p95
threshold, default burn thresholds. -/
def cfg0 : SLOConfig := ⟨999 / 10, 500, ⟨some 10, some 5, some 2⟩⟩

/-- An SLO configuration with a 100 % availability target. -/
def cfg100 : SLOConfig := ⟨100, 500, ⟨Option.none, Option.none, Option.none⟩⟩

/-- Telemetry lacking `total_requests`. -/
def mNoTotal : Metrics :=
  ⟨Option.none, some 0, some ⟨some 50, Option.none, Option.none⟩, some [1]⟩

/-- Telemetry lacking `hourly_burn_rate` (all other fields present). -/
def mNoHourly : Metrics :=
  ⟨some 100, some 0, some ⟨some 50, Option.none, Option.none⟩, Option.none⟩

/-- Telemetry with a present but empty `hourly_burn_rate` series. -/
def mEmptyHourly : Metrics :=
  ⟨some 100, some 0, some ⟨some 50, Option.none, Option.none⟩, some []⟩

/-- Telemetry with a four-sample burn series. -/
def mBurn4 : Metrics :=
  ⟨some 100, some 0, some ⟨some 50, Option.none, Option.none⟩, some [1, 2, 3, 4]⟩

/-- Telemetry with zero total requests and five failed requests. -/
def mZero5 : Metrics :=
  ⟨some 0, some 5, some ⟨some 50, Option.none, Option.none⟩, some [1]⟩

/-- Telemetry with 1000 total requests, 5 of them failed. -/
def mGood : Metrics :=
  ⟨some 1000, some 5, some ⟨some 480, Option.none, Option.none⟩, some [1]⟩

/-- An eight-day amount series (between 7 and 13 observations). -/
def a8 : List ℚ := [1, 2, 3, 4, 5, 6, 7, 8]

/-- Cost data with six daily observations (same day key, so already
date-sorted). -/
def d6 : CostData :=
  ⟨[⟨"d", 1⟩, ⟨"d", 2⟩, ⟨"d", 3⟩, ⟨"d", 4⟩, ⟨"d", 5⟩, ⟨"d", 6⟩], 0⟩

/-- Cost data with fourteen daily observations: a 10-dollar week followed by
a 14-dollar week, a 40 % week-over-week increase. -/
def d9 : CostData :=
  ⟨[⟨"d", 10⟩, ⟨"d", 10⟩, ⟨"d", 10⟩, ⟨"d", 10⟩, ⟨"d", 10⟩, ⟨"d", 10⟩, ⟨"d", 10⟩,
    ⟨"d", 14⟩, ⟨"d", 14⟩, ⟨"d", 14⟩, ⟨"d", 14⟩, ⟨"d", 14⟩, ⟨"d", 14⟩, ⟨"d", 14⟩], 0⟩

end Guardrails

namespace Guardrails

/-! ## Helper lemmas -/

/-- The policy loop keeps exactly the first policy (in list order) whose
match succeeds, provided no match raised. -/
theorem scanPolicies_eq_find {s : List (String × Val)} :
    ∀ {l : List Policy} {r : Option Policy}, scanPolicies s l = some r →
      r = l.find? (fun p => matchesPolicy p s == some true) := by
  intro l
  induction l with
  | nil => intro r h; simp [scanPolicies] at h; simp [h.symm]
  | cons p rest ih =>
    intro r h
    rw [scanPolicies] at h
    cases hm : matchesPolicy p s with
    | none => rw [hm] at h; exact absurd h (by simp)
    | some m =>
      rw [hm] at h
      cases hs : scanPolicies s rest with
      | none => rw [hs] at h; exact absurd h (by simp)
      | some found =>
        rw [hs] at h
        simp only [Option.some.injEq] at h
        rw [List.find?_cons, hm]
        cases m with
        | true => simpa using h.symm
        | false => simpa [ih hs] using h.symm

/-- The spec's tie-broken ordering on enumerated policies coincides with the
`enumLE` ordering used to state stability of `mergeSort`. -/
theorem specOrder_eq_enumLE : specOrder = List.enumLE prioLE := by
  funext a b
  simp only [specOrder, List.enumLE, prioLE]
  rcases lt_trichotomy (prio a.2) (prio b.2) with h | h | h
  · simp [h, le_of_lt h, not_le.mpr h]
  · simp [h]
  · simp [not_lt.mpr h.le, ne_of_gt h, not_le.mpr h]

/-- Sorting by priority and then taking the first match equals taking the
first match of the sort that breaks priority ties by original position. -/
theorem specWinner_eq_find (ps : List Policy) (s : List (String × Val)) :
    specWinner ps s =
      (loadPolicies ps).find? (fun p => matchesPolicy p s == some true) := by
  rw [specWinner, specOrder_eq_enumLE, loadPolicies]
  rw [show (Prod.snd : Nat × Policy → Policy) = (·.2) from rfl]
  rw [List.mergeSort_enum]

/-- In a priority-sorted list, the first policy satisfying a predicate has a
priority no greater than any other policy satisfying it. -/
theorem find?_min_prio :
    ∀ {l : List Policy} {q : Policy → Bool} {w : Policy},
      List.Pairwise (fun a b => prioLE a b = true) l →
      l.find? q = some w → ∀ p ∈ l, q p = true → prio w ≤ prio p := by
  intro l
  induction l with
  | nil => intro q w _ h; simp at h
  | cons a rest ih =>
    intro q w hp hf p hmem hq
    rw [List.find?_cons] at hf
    cases ha : q a with
    | true =>
      rw [ha] at hf
      simp only [Option.some.injEq] at hf
      subst hf
      rcases List.mem_cons.mp hmem with h | h
      · subst h; exact le_refl _
      · have := (List.pairwise_cons.mp hp).1 p h
        simpa [prioLE] using this
    | false =>
      rw [ha] at hf
      rcases List.mem_cons.mp hmem with h | h
      · subst h; rw [hq] at ha; cases ha
      · exact ih (List.pairwise_cons.mp hp).2 hf p h hq

/-- `prioLE` is transitive (as required by the sortedness lemma). -/
theorem prioLE_trans : ∀ a b c : Policy, prioLE a b → prioLE b c → prioLE a c := by
  intro a b c h1 h2
  simp only [prioLE, decide_eq_true_eq] at h1 h2 ⊢
  omega

/-- `prioLE` is total (as required by the sortedness lemma). -/
theorem prioLE_total : ∀ a b : Policy, prioLE a b || prioLE b a := by
  intro a b
  simp only [prioLE]
  by_cases h : prio a ≤ prio b
  · simp [h]
  · simp only [h, decide_False, Bool.false_or, decide_eq_true_eq]
    omega

/-- If every policy fails to match (without raising), the scan finds none. -/
theorem scanPolicies_none {s : List (String × Val)} :
    ∀ {l : List Policy}, (∀ p ∈ l, matchesPolicy p s = some false) →
      scanPolicies s l = some Option.none := by
  intro l
  induction l with
  | nil => intro _; rfl
  | cons p rest ih =>
    intro h
    rw [scanPolicies, h p (List.mem_cons_self p rest),
      ih (fun q hq => h q (List.mem_cons_of_mem p hq))]
    rfl

/-- A policy one of whose conditions references an absent signal key can
never match: the scan either fails closed or an unrelated condition raises. -/
theorem matches_absent_key_not_true {s : List (String × Val)} :
    ∀ {cs : List (String × Cond)},
      (∃ kc ∈ cs, sigVal s kc.1 = Option.none) →
      matchesConds s cs ≠ some true := by
  intro cs
  induction cs with
  | nil => rintro ⟨kc, h, _⟩; cases h
  | cons kc rest ih =>
    rintro ⟨kc0, hmem, habs⟩
    rcases List.mem_cons.mp hmem with h | h
    · subst h
      simp [matchesConds, habs]
    · cases hv : sigVal s kc.1 with
      | none => simp [matchesConds, hv]
      | some v =>
        cases hac : applyCond kc.2.operator v kc.2.value with
        | none => simp [matchesConds, hv, hac]
        | some b =>
          cases b with
          | false => simp [matchesConds, hv, hac]
          | true => simpa [matchesConds, hv, hac] using ih ⟨kc0, h, habs⟩

/-- An operator outside the seven known ones falls through every guard. -/
theorem applyCond_unknown {op : String} (v : Val) (t : CVal)
    (h : op ∉ ["lt", "lte", "gt", "gte", "eq", "neq", "in"]) :
    applyCond op v t = some true := by
  simp only [List.mem_cons, not_or] at h
  obtain ⟨h1, h2, h3, h4, h5, h6, h7, _⟩ := h
  simp [applyCond, h1, h2, h3, h4, h5, h6, h7]

/-- A condition list all of whose operators are unknown and all of whose
keys resolve to present signal values is satisfied as a whole. -/
theorem matchesConds_all_unknown {s : List (String × Val)} :
    ∀ {cs : List (String × Cond)},
      (∀ kc ∈ cs, kc.2.operator ∉ ["lt", "lte", "gt", "gte", "eq", "neq", "in"] ∧
        (sigVal s kc.1).isSome = true) →
      matchesConds s cs = some true := by
  intro cs
  induction cs with
  | nil => intro _; rfl
  | cons kc rest ih =>
    intro h
    obtain ⟨hop, hsome⟩ := h kc (List.mem_cons_self kc rest)
    obtain ⟨v, hv⟩ := Option.isSome_iff_exists.mp hsome
    simp only [matchesConds, hv, applyCond_unknown v kc.2.value hop]
    exact ih (fun q hq => h q (List.mem_cons_of_mem kc hq))

/-- Nearest-integer rounding is monotone. -/
theorem roundQ_mono {x y : ℚ} (h : x ≤ y) : round x ≤ round y := by
  rw [round_eq, round_eq]
  exact Int.floor_mono (by linarith)

/-- Two-decimal rounding preserves non-negativity. -/
theorem round2_nonneg {q : ℚ} (h0 : 0 ≤ q) : 0 ≤ round2 q := by
  have h : (0 : ℤ) ≤ round (q * 100) := by
    have h2 := roundQ_mono (show (0 : ℚ) ≤ q * 100 by nlinarith)
    simpa using h2
  rw [round2]
  exact div_nonneg (by exact_mod_cast h) (by norm_num)

/-- Two-decimal rounding preserves the upper bound 100. -/
theorem round2_le_100 {q : ℚ} (h1 : q ≤ 100) : round2 q ≤ 100 := by
  have h : round (q * 100) ≤ (10000 : ℤ) := by
    have h2 := roundQ_mono (show q * 100 ≤ (10000 : ℚ) by nlinarith)
    simpa using h2
  rw [round2, div_le_iff₀ (show (0 : ℚ) < 100 by norm_num)]
  have h3 : ((round (q * 100) : ℤ) : ℚ) ≤ 10000 := by exact_mod_cast h
  linarith

/-- Six-decimal rounding preserves non-negativity. -/
theorem round6_nonneg {q : ℚ} (h0 : 0 ≤ q) : 0 ≤ round6 q := by
  have h : (0 : ℤ) ≤ round (q * 1000000) := by
    have h2 := roundQ_mono (show (0 : ℚ) ≤ q * 1000000 by nlinarith)
    simpa using h2
  rw [round6]
  exact div_nonneg (by exact_mod_cast h) (by norm_num)

/-- Six-decimal rounding preserves the upper bound 100. -/
theorem round6_le_100 {q : ℚ} (h1 : q ≤ 100) : round6 q ≤ 100 := by
  have h : round (q * 1000000) ≤ (100000000 : ℤ) := by
    have h2 := roundQ_mono (show q * 1000000 ≤ (100000000 : ℚ) by nlinarith)
    simpa using h2
  rw [round6, div_le_iff₀ (show (0 : ℚ) < 1000000 by norm_num)]
  have h3 : ((round (q * 1000000) : ℤ) : ℚ) ≤ 100000000 := by exact_mod_cast h
  linarith

/-- Inversion for the SLO engine: a successful evaluation forces every
required metric field to be present (and the burn series non-empty), and the
result is the arithmetic core on the extracted values. -/
theorem evaluate_some_inv {cfg : SLOConfig} {m : Metrics} {r : SLOResult}
    (hr : SLOEngine.evaluate cfg m = some r) :
    ∃ total failed lat p95, m.total_requests = some total ∧
      m.failed_requests = some failed ∧
      (m.hourly_burn_rate.getD [1]).isEmpty = false ∧
      m.latency_percentiles = some lat ∧ lat.p95_ms = some p95 ∧
      r = sloCore cfg total failed (m.hourly_burn_rate.getD [1]) p95 (latP99 lat p95) := by
  rw [SLOEngine.evaluate] at hr
  split at hr
  · cases hr
  · rename_i total ht
    split at hr
    · cases hr
    · rename_i failed hf
      split at hr
      · cases hr
      · rename_i hh
        split at hr
        · cases hr
        · rename_i lat hlat
          split at hr
          · cases hr
          · rename_i p95 hp
            exact ⟨total, failed, lat, p95, ht, hf, by simpa using hh, hlat, hp,
              (Option.some.inj hr).symm⟩

/-- Case analysis of the burn-rate ladder: each label is returned exactly
when its rule is the first satisfied one. -/
theorem burnLabel_spec (c h m rec ebp : ℚ) :
    (burnLabel c h m rec ebp = "critical" ↔ (c ≤ rec ∨ ebp < 10)) ∧
    (burnLabel c h m rec ebp = "high" ↔
      ¬(c ≤ rec ∨ ebp < 10) ∧ (h ≤ rec ∨ ebp < 20)) ∧
    (burnLabel c h m rec ebp = "medium" ↔
      ¬(c ≤ rec ∨ ebp < 10) ∧ ¬(h ≤ rec ∨ ebp < 20) ∧ (m ≤ rec ∨ ebp < 50)) ∧
    (burnLabel c h m rec ebp = "low" ↔
      ¬(c ≤ rec ∨ ebp < 10) ∧ ¬(h ≤ rec ∨ ebp < 20) ∧ ¬(m ≤ rec ∨ ebp < 50)) := by
  by_cases h1 : (c ≤ rec ∨ ebp < 10)
  · simp [burnLabel, h1]
  · by_cases h2 : (h ≤ rec ∨ ebp < 20)
    · simp [burnLabel, h1, h2]
    · by_cases h3 : (m ≤ rec ∨ ebp < 50)
      · simp [burnLabel, h1, h2, h3]
      · simp [burnLabel, h1, h2, h3]

/-- The four interesting fields of the SLO core, written out. -/
theorem sloCore_fields (cfg : SLOConfig) (t f : ℤ) (hourly : List ℚ) (p95 p99 : ℚ) :
    (sloCore cfg t f hourly p95 p99).availability_pct =
      (if 0 < t then round6 ((((max 0 (t - f) : ℤ) : ℚ) / (t : ℚ)) * 100) else 100) ∧
    (sloCore cfg t f hourly p95 p99).error_budget_pct =
      round2 (max 0 (100 -
        (if 0 < 100 - cfg.availability_target then
          ((100 - (sloCore cfg t f hourly p95 p99).availability_pct) /
            (100 - cfg.availability_target)) * 100
        else if 0 < f then 100 else 0))) ∧
    (sloCore cfg t f hourly p95 p99).burn_rate =
      burnLabel (cfg.burn.critical.getD 10) (cfg.burn.high.getD 5)
        (cfg.burn.medium.getD 2) (recentBurn hourly)
        (sloCore cfg t f hourly p95 p99).error_budget_pct ∧
    (sloCore cfg t f hourly p95 p99).burn_rate_value = round2 (recentBurn hourly) :=
  ⟨rfl, rfl, rfl, rfl⟩

/-! ## Claims -/

/-- C1: DecisionEngine.evaluate selects as the winning policy the first
matching policy after sorting the policies ascending by priority with ties
broken by original declaration order (stable sort): whenever the scan
completes without a raised comparison, the retained policy is exactly the
first match of that tie-broken order (`specWinner`), among two matching
policies the one with the lower priority value wins regardless of
declaration order, and a policy whose conditions map is empty always
matches. -/
theorem claim_c1_first_match_by_priority (ps : List Policy) (s : List (String × Val)) :
    (∀ p : Policy, p.conditions = [] → matchesPolicy p s = some true) ∧
    (∀ r, scanPolicies s (loadPolicies ps) = some r →
      r = specWinner ps s ∧
      DecisionEngine.evaluate ps s = some (decisionOf (r.getD fallbackPolicy))) ∧
    (∀ w p, scanPolicies s (loadPolicies ps) = some (some w) →
      p ∈ ps → matchesPolicy p s = some true → prio w ≤ prio p) := by
  refine ⟨?_, ?_, ?_⟩
  · intro p hp
    simp [matchesPolicy, hp]
  · intro r hr
    constructor
    · rw [specWinner_eq_find]
      exact scanPolicies_eq_find hr
    · rw [DecisionEngine.evaluate, hr]
      cases r with
      | none => rfl
      | some p => rfl
  · intro w p hscan hmem hmatch
    have hfind := scanPolicies_eq_find hscan
    have hsorted : List.Pairwise (fun a b => prioLE a b = true) (loadPolicies ps) := by
      rw [loadPolicies]
      exact List.sorted_mergeSort prioLE_trans prioLE_total ps
    have hmem2 : p ∈ loadPolicies ps := by
      rw [loadPolicies]
      exact List.mem_mergeSort.mpr hmem
    exact find?_min_prio hsorted hfind.symm p hmem2 (by simp [hmatch])

/-- C1 witness: on a concrete two-policy ruleset the matching policy of
lower priority wins, the catch-all matches, and the winner agrees with the
spec-side tie-broken order. -/
theorem claim_c1_witness :
    matchesPolicy pB sig0 = some true ∧
    some pA = specWinner [pA, pB] sig0 ∧
    DecisionEngine.evaluate [pA, pB] sig0 = some (decisionOf pA) ∧
    prio pA ≤ prio pB := by
  have hscan : scanPolicies sig0 (loadPolicies [pA, pB]) = some (some pA) := by
    rw [show loadPolicies [pA, pB] = [pA, pB] from List.mergeSort_of_sorted (by decide)]
    decide
  have h := claim_c1_first_match_by_priority [pA, pB] sig0
  exact ⟨h.1 pB rfl, (h.2.1 (some pA) hscan).1, (h.2.1 (some pA) hscan).2,
    h.2.2 pA pB hscan (by simp) (h.1 pB rfl)⟩

/-- C2: the exit-code contract: ALLOW and WARN map to 0, DELAY to 1 and
BLOCK to 2. -/
theorem claim_c2_exit_codes (d : DecisionResult) :
    (d.action = "ALLOW" → d.exit_code = 0) ∧
    (d.action = "WARN" → d.exit_code = 0) ∧
    (d.action = "DELAY" → d.exit_code = 1) ∧
    (d.action = "BLOCK" → d.exit_code = 2) := by
  refine ⟨fun h => ?_, fun h => ?_, fun h => ?_, fun h => ?_⟩ <;>
    simp [DecisionResult.exit_code, h]

/-- C2 witness: concrete decisions for an ALLOW and a BLOCK action. -/
theorem claim_c2_witness :
    (decisionOf fallbackPolicy).exit_code = 0 ∧ (decisionOf pA).exit_code = 2 :=
  ⟨(claim_c2_exit_codes (decisionOf fallbackPolicy)).1 rfl,
    (claim_c2_exit_codes (decisionOf pA)).2.2.2 rfl⟩

/-- C8: a condition whose key is absent from the signal map fails the whole
match closed (`some false`, never a raised comparison), a policy containing
such a condition never matches, and when no policy matches the engine
returns the fixed fallback ALLOW decision (with its advisory reason and
review-configuration remediation) instead of raising. -/
theorem claim_c8_fail_closed_fallback :
    (∀ (s : List (String × Val)) (key : String) (rule : Cond) (rest : List (String × Cond)),
      sigVal s key = Option.none →
      matchesConds s ((key, rule) :: rest) = some false) ∧
    (∀ (s : List (String × Val)) (p : Policy),
      (∃ kc ∈ p.conditions, sigVal s kc.1 = Option.none) →
      matchesPolicy p s ≠ some true) ∧
    (∀ (ps : List Policy) (s : List (String × Val)),
      (∀ p ∈ ps, matchesPolicy p s = some false) →
      DecisionEngine.evaluate ps s = some (decisionOf fallbackPolicy) ∧
      (decisionOf fallbackPolicy).action = "ALLOW" ∧
      (decisionOf fallbackPolicy).reason = "No matching policy found — defaulting to ALLOW" ∧
      (decisionOf fallbackPolicy).remediation = "Review your policies.yaml configuration.") := by
  refine ⟨?_, ?_, ?_⟩
  · intro s key rule rest h
    simp [matchesConds, h]
  · intro s p hex
    rw [matchesPolicy]
    by_cases hc : p.conditions.isEmpty
    · rcases hex with ⟨kc, hm, _⟩
      rw [List.isEmpty_iff] at hc
      rw [hc] at hm
      cases hm
    · simp only [hc, if_false]
      exact matches_absent_key_not_true hex
  · intro ps s hall
    have hall2 : ∀ p ∈ loadPolicies ps, matchesPolicy p s = some false := by
      intro p hp
      rw [loadPolicies] at hp
      exact hall p (List.mem_mergeSort.mp hp)
    refine ⟨?_, rfl, rfl, rfl⟩
    rw [DecisionEngine.evaluate, scanPolicies_none hall2]

/-- C8 witness: concrete absent-key condition, a concrete policy that fails
closed on it, and a concrete one-policy ruleset with no match yielding the
fallback ALLOW decision. -/
theorem claim_c8_witness :
    matchesConds [] [("not_a_signal", ⟨"gte", CVal.scalar (Val.vnum 1)⟩)] = some false ∧
    matchesPolicy pMissingKey sig0 ≠ some true ∧
    DecisionEngine.evaluate [pMissingKey] sig0 = some (decisionOf fallbackPolicy) := by
  have h := claim_c8_fail_closed_fallback
  refine ⟨h.1 [] "not_a_signal" ⟨"gte", CVal.scalar (Val.vnum 1)⟩ [] rfl,
    h.2.1 sig0 pMissingKey
      ⟨("not_a_signal", ⟨"gte", CVal.scalar (Val.vnum 1)⟩), by simp [pMissingKey], by decide⟩,
    (h.2.2 [pMissingKey] sig0 ?_).1⟩
  intro p hp
  rw [List.mem_singleton.mp hp]
  decide

/-- C10 counterexample: the claim asserts a policy whose conditions all have
unknown operators matches; `pUnknownOp` has a single condition with the
unknown operator "approx", yet against an empty signal map it does not match
(the absent-key check precedes operator dispatch). -/
theorem claim_c10_counterexample : matchesPolicy pUnknownOp [] = some false := by
  decide

/-- C10 amended: a condition with an unknown operator is silently skipped
(treated as satisfied) and matching continues with the remaining keys,
provided its signal key resolves to a present value (the absent-key check
precedes operator dispatch); consequently a policy whose conditions all have
unknown operators and present keys matches. -/
theorem claim_c10_unknown_operator_skipped :
    (∀ (s : List (String × Val)) (key : String) (rule : Cond)
        (rest : List (String × Cond)) (v : Val),
      sigVal s key = some v →
      rule.operator ∉ ["lt", "lte", "gt", "gte", "eq", "neq", "in"] →
      matchesConds s ((key, rule) :: rest) = matchesConds s rest) ∧
    (∀ (p : Policy) (s : List (String × Val)),
      (∀ kc ∈ p.conditions,
        kc.2.operator ∉ ["lt", "lte", "gt", "gte", "eq", "neq", "in"] ∧
        (sigVal s kc.1).isSome = true) →
      matchesPolicy p s = some true) := by
  constructor
  · intro s key rule rest v hv hop
    simp only [matchesConds, hv, applyCond_unknown v rule.value hop]
  · intro p s h
    rw [matchesPolicy]
    by_cases hc : p.conditions.isEmpty
    · simp [hc]
    · simp only [hc, if_false]
      exact matchesConds_all_unknown h

/-- C3: with positive total requests and non-negative failures, availability
is the 6-decimal rounding of 100·max(0, total − failed)/total, and both
availability and the remaining error budget lie in [0, 100]. -/
theorem claim_c3_availability_bounds (cfg : SLOConfig) (m : Metrics) (t f : ℤ)
    (r : SLOResult) (ht : m.total_requests = some t)
    (hf : m.failed_requests = some f) (htpos : 0 < t) (hfnn : 0 ≤ f)
    (hr : SLOEngine.evaluate cfg m = some r) :
    r.availability_pct = round6 (100 * ((max 0 (t - f) : ℤ) : ℚ) / (t : ℚ)) ∧
    0 ≤ r.availability_pct ∧ r.availability_pct ≤ 100 ∧
    0 ≤ r.error_budget_pct ∧ r.error_budget_pct ≤ 100 := by
  obtain ⟨total, failed, lat, p95, ht2, hf2, hne, hlat, hp95, hr2⟩ := evaluate_some_inv hr
  rw [ht] at ht2
  rw [hf] at hf2
  obtain rfl : t = total := Option.some.inj ht2
  obtain rfl : f = failed := Option.some.inj hf2
  subst hr2
  obtain ⟨hAv, hEb, -, -⟩ :=
    sloCore_fields cfg t f (m.hourly_burn_rate.getD [1]) p95 (latP99 lat p95)
  rw [if_pos htpos] at hAv
  have htq : (0 : ℚ) < (t : ℚ) := by exact_mod_cast htpos
  have hs0 : (0 : ℚ) ≤ ((max 0 (t - f) : ℤ) : ℚ) := by
    exact_mod_cast le_max_left 0 (t - f)
  have hsle : ((max 0 (t - f) : ℤ) : ℚ) ≤ (t : ℚ) := by
    have h := max_le htpos.le (show t - f ≤ t by omega)
    exact_mod_cast h
  have hx0 : (0 : ℚ) ≤ ((max 0 (t - f) : ℤ) : ℚ) / (t : ℚ) * 100 := by positivity
  have hx100 : ((max 0 (t - f) : ℤ) : ℚ) / (t : ℚ) * 100 ≤ 100 := by
    have h1 : ((max 0 (t - f) : ℤ) : ℚ) / (t : ℚ) ≤ 1 := (div_le_one htq).mpr hsle
    nlinarith
  have hb0 : 0 ≤ round6 (((max 0 (t - f) : ℤ) : ℚ) / (t : ℚ) * 100) := round6_nonneg hx0
  have hb1 : round6 (((max 0 (t - f) : ℤ) : ℚ) / (t : ℚ) * 100) ≤ 100 := round6_le_100 hx100
  refine ⟨?_, ?_, ?_, ?_, ?_⟩
  · rw [hAv]
    congr 1
    ring
  · rw [hAv]; exact hb0
  · rw [hAv]; exact hb1
  · rw [hEb]; exact round2_nonneg (le_max_left _ _)
  · rw [hEb]
    apply round2_le_100
    have hcons : 0 ≤
        (if 0 < 100 - cfg.availability_target then
          ((100 - (sloCore cfg t f (m.hourly_burn_rate.getD [1]) p95
            (latP99 lat p95)).availability_pct) /
            (100 - cfg.availability_target)) * 100
        else if 0 < f then (100 : ℚ) else 0) := by
      by_cases hA : (0 : ℚ) < 100 - cfg.availability_target
      · rw [if_pos hA, hAv]
        have : (0 : ℚ) ≤ 100 - round6 (((max 0 (t - f) : ℤ) : ℚ) / (t : ℚ) * 100) := by
          linarith
        exact mul_nonneg (div_nonneg this hA.le) (by norm_num)
      · rw [if_neg hA]
        by_cases hF : 0 < f
        · rw [if_pos hF]; norm_num
        · rw [if_neg hF]
    exact max_le (by norm_num) (by linarith)

/-- C3 witness: 1000 requests with 5 failures against the standard
configuration. -/
theorem claim_c3_witness :
    (sloCore cfg0 1000 5 [1] 480 480).availability_pct =
      round6 (100 * ((max 0 (1000 - 5) : ℤ) : ℚ) / ((1000 : ℤ) : ℚ)) ∧
    0 ≤ (sloCore cfg0 1000 5 [1] 480 480).availability_pct ∧
    (sloCore cfg0 1000 5 [1] 480 480).availability_pct ≤ 100 ∧
    0 ≤ (sloCore cfg0 1000 5 [1] 480 480).error_budget_pct ∧
    (sloCore cfg0 1000 5 [1] 480 480).error_budget_pct ≤ 100 :=
  claim_c3_availability_bounds cfg0 mGood 1000 5 (sloCore cfg0 1000 5 [1] 480 480)
    rfl rfl (by norm_num) (by norm_num) rfl

/-- C4: the burn-rate label stored in the result is the first-satisfied rule
of the ladder evaluated at the recent burn and the stored error budget; in
particular a sub-10 % error budget forces the label "critical" regardless of
the numeric burn value. -/
theorem claim_c4_burn_classification (cfg : SLOConfig) (m : Metrics) (r : SLOResult)
    (hr : SLOEngine.evaluate cfg m = some r) :
    (r.burn_rate = "critical" ↔
      (cfg.burn.critical.getD 10 ≤ recentBurn (m.hourly_burn_rate.getD [1]) ∨
        r.error_budget_pct < 10)) ∧
    (r.burn_rate = "high" ↔
      ¬(cfg.burn.critical.getD 10 ≤ recentBurn (m.hourly_burn_rate.getD [1]) ∨
        r.error_budget_pct < 10) ∧
      (cfg.burn.high.getD 5 ≤ recentBurn (m.hourly_burn_rate.getD [1]) ∨
        r.error_budget_pct < 20)) ∧
    (r.burn_rate = "medium" ↔
      ¬(cfg.burn.critical.getD 10 ≤ recentBurn (m.hourly_burn_rate.getD [1]) ∨
        r.error_budget_pct < 10) ∧
      ¬(cfg.burn.high.getD 5 ≤ recentBurn (m.hourly_burn_rate.getD [1]) ∨
        r.error_budget_pct < 20) ∧
      (cfg.burn.medium.getD 2 ≤ recentBurn (m.hourly_burn_rate.getD [1]) ∨
        r.error_budget_pct < 50)) ∧
    (r.burn_rate = "low" ↔
      ¬(cfg.burn.critical.getD 10 ≤ recentBurn (m.hourly_burn_rate.getD [1]) ∨
        r.error_budget_pct < 10) ∧
      ¬(cfg.burn.high.getD 5 ≤ recentBurn (m.hourly_burn_rate.getD [1]) ∨
        r.error_budget_pct < 20) ∧
      ¬(cfg.burn.medium.getD 2 ≤ recentBurn (m.hourly_burn_rate.getD [1]) ∨
        r.error_budget_pct < 50)) ∧
    (r.error_budget_pct < 10 → r.burn_rate = "critical") := by
  obtain ⟨total, failed, lat, p95, ht2, hf2, hne, hlat, hp95, hr2⟩ := evaluate_some_inv hr
  subst hr2
  obtain ⟨-, -, hBr, -⟩ :=
    sloCore_fields cfg total failed (m.hourly_burn_rate.getD [1]) p95 (latP99 lat p95)
  have hbs := burnLabel_spec (cfg.burn.critical.getD 10) (cfg.burn.high.getD 5)
    (cfg.burn.medium.getD 2) (recentBurn (m.hourly_burn_rate.getD [1]))
    ((sloCore cfg total failed (m.hourly_burn_rate.getD [1]) p95
      (latP99 lat p95)).error_budget_pct)
  rw [hBr]
  exact ⟨hbs.1, hbs.2.1, hbs.2.2.1, hbs.2.2.2, fun h => hbs.1.mpr (Or.inr h)⟩

/-- C4 witness: on the concrete 1000-request telemetry the error budget is
exhausted (0 % < 10 %), which forces the label "critical" even though the
numeric burn value 1.0 is below every threshold. -/
theorem claim_c4_witness :
    (sloCore cfg0 1000 5 [1] 480 480).burn_rate = "critical" := by
  have h := claim_c4_burn_classification cfg0 mGood
    (sloCore cfg0 1000 5 [1] 480 480) rfl
  apply h.2.2.2.2
  norm_num [sloCore, cfg0, round6, round2, round_eq, max_def]

/-- C5 counterexample: the claim lists `hourly_burn_rate` among the fields
whose absence is fatal, but the engine reads it with a silent default
(`metrics.get("hourly_burn_rate", [1.0])`): on telemetry lacking the key the
evaluation succeeds. -/
theorem claim_c5_counterexample :
    mNoHourly.hourly_burn_rate = Option.none ∧
    SLOEngine.evaluate cfg0 mNoHourly = some (sloCore cfg0 100 0 [1] 50 50) :=
  ⟨rfl, rfl⟩

/-- C5 amended: a missing `total_requests`, `failed_requests`,
`latency_percentiles` or `p95_ms` raises (the evaluation fails); a missing
`hourly_burn_rate` does not raise but silently defaults to `[1.0]`; a
present-but-empty burn series raises (division by zero); and on any
successful evaluation the stored burn value is the two-decimal rounding of
the mean of the last `min(3, n)` samples. -/
theorem claim_c5_missing_fields :
    (∀ (cfg : SLOConfig) (m : Metrics), m.total_requests = Option.none →
      SLOEngine.evaluate cfg m = Option.none) ∧
    (∀ (cfg : SLOConfig) (m : Metrics), m.failed_requests = Option.none →
      SLOEngine.evaluate cfg m = Option.none) ∧
    (∀ (cfg : SLOConfig) (m : Metrics), m.latency_percentiles = Option.none →
      SLOEngine.evaluate cfg m = Option.none) ∧
    (∀ (cfg : SLOConfig) (m : Metrics) (lat : LatencyPercentiles),
      m.latency_percentiles = some lat → lat.p95_ms = Option.none →
      SLOEngine.evaluate cfg m = Option.none) ∧
    (∀ (cfg : SLOConfig) (m : Metrics), m.hourly_burn_rate = Option.none →
      SLOEngine.evaluate cfg m =
        SLOEngine.evaluate cfg { m with hourly_burn_rate := some [1] }) ∧
    (∀ (cfg : SLOConfig) (m : Metrics), m.hourly_burn_rate = some [] →
      SLOEngine.evaluate cfg m = Option.none) ∧
    (∀ (cfg : SLOConfig) (m : Metrics) (hs : List ℚ) (r : SLOResult),
      m.hourly_burn_rate = some hs → SLOEngine.evaluate cfg m = some r →
      r.burn_rate_value =
        round2 ((hs.drop (hs.length - 3)).sum / ((min 3 hs.length : ℕ) : ℚ))) := by
  refine ⟨?_, ?_, ?_, ?_, ?_, ?_, ?_⟩
  · intro cfg m h
    simp [SLOEngine.evaluate, h]
  · intro cfg m h
    cases htot : m.total_requests with
    | none => simp [SLOEngine.evaluate, htot]
    | some t => simp [SLOEngine.evaluate, htot, h]
  · intro cfg m h
    cases htot : m.total_requests with
    | none => simp [SLOEngine.evaluate, htot]
    | some t =>
      cases hfl : m.failed_requests with
      | none => simp [SLOEngine.evaluate, htot, hfl]
      | some f => simp [SLOEngine.evaluate, htot, hfl, h]
  · intro cfg m lat hlat hp
    cases htot : m.total_requests with
    | none => simp [SLOEngine.evaluate, htot]
    | some t =>
      cases hfl : m.failed_requests with
      | none => simp [SLOEngine.evaluate, htot, hfl]
      | some f => simp [SLOEngine.evaluate, htot, hfl, hlat, hp]
  · intro cfg m h
    cases htot : m.total_requests with
    | none => simp [SLOEngine.evaluate, htot]
    | some t =>
      cases hfl : m.failed_requests with
      | none => simp [SLOEngine.evaluate, htot, hfl]
      | some f => simp [SLOEngine.evaluate, htot, hfl, h]
  · intro cfg m h
    cases htot : m.total_requests with
    | none => simp [SLOEngine.evaluate, htot]
    | some t =>
      cases hfl : m.failed_requests with
      | none => simp [SLOEngine.evaluate, htot, hfl]
      | some f => simp [SLOEngine.evaluate, htot, hfl, h]
  · intro cfg m hs r hhs hr
    obtain ⟨total, failed, lat, p95, ht2, hf2, hne, hlat, hp95, hr2⟩ :=
      evaluate_some_inv hr
    subst hr2
    obtain ⟨-, -, -, hBv⟩ :=
      sloCore_fields cfg total failed (m.hourly_burn_rate.getD [1]) p95 (latP99 lat p95)
    rw [hBv, hhs]
    rfl

/-- C5 witness: the four amended behaviours on concrete telemetry — missing
total is fatal, missing burn series defaults, empty burn series is fatal,
and the stored burn value for the series [1, 2, 3, 4] is the mean of its
last three samples. -/
theorem claim_c5_witness :
    SLOEngine.evaluate cfg0 mNoTotal = Option.none ∧
    SLOEngine.evaluate cfg0 mNoHourly =
      SLOEngine.evaluate cfg0 { mNoHourly with hourly_burn_rate := some [1] } ∧
    SLOEngine.evaluate cfg0 mEmptyHourly = Option.none ∧
    (sloCore cfg0 100 0 [1, 2, 3, 4] 50 50).burn_rate_value =
      round2 ((([(1 : ℚ), 2, 3, 4]).drop (([(1 : ℚ), 2, 3, 4]).length - 3)).sum /
        ((min 3 ([(1 : ℚ), 2, 3, 4]).length : ℕ) : ℚ)) :=
  ⟨claim_c5_missing_fields.1 cfg0 mNoTotal rfl,
    claim_c5_missing_fields.2.2.2.2.1 cfg0 mNoHourly rfl,
    claim_c5_missing_fields.2.2.2.2.2.1 cfg0 mEmptyHourly rfl,
    claim_c5_missing_fields.2.2.2.2.2.2 cfg0 mBurn4 [1, 2, 3, 4]
      (sloCore cfg0 100 0 [1, 2, 3, 4] 50 50) rfl rfl⟩

/-- C7 counterexample: with an availability target of 100 % and any failures
recorded alongside zero total requests, the error budget is 0, not 100 — the
claim's "for any configured availability target" fails. -/
theorem claim_c7_counterexample :
    (SLOEngine.evaluate cfg100 mZero5).map SLOResult.availability_pct = some 100 ∧
    (SLOEngine.evaluate cfg100 mZero5).map SLOResult.error_budget_pct = some 0 := by
  constructor
  · norm_num [SLOEngine.evaluate, cfg100, mZero5, sloCore, latP99, round2, round6,
      round_eq, recentBurn, max_def]
  · norm_num [SLOEngine.evaluate, cfg100, mZero5, sloCore, latP99, round2, round6,
      round_eq, recentBurn, max_def]

/-- C7 amended: zero total requests always yield availability 100 %; the
error budget is also 100 % whenever the availability target is below 100 %
or no failures were recorded, but with a target of at least 100 % and a
positive failure count the error budget is 0. -/
theorem claim_c7_zero_total (cfg : SLOConfig) (m : Metrics) (f : ℤ) (r : SLOResult)
    (ht : m.total_requests = some 0) (hf : m.failed_requests = some f)
    (hr : SLOEngine.evaluate cfg m = some r) :
    r.availability_pct = 100 ∧
    (cfg.availability_target < 100 → r.error_budget_pct = 100) ∧
    (f ≤ 0 → r.error_budget_pct = 100) ∧
    (100 ≤ cfg.availability_target → 0 < f → r.error_budget_pct = 0) := by
  obtain ⟨total, failed, lat, p95, ht2, hf2, hne, hlat, hp95, hr2⟩ := evaluate_some_inv hr
  rw [ht] at ht2
  rw [hf] at hf2
  obtain rfl : (0 : ℤ) = total := Option.some.inj ht2
  obtain rfl : f = failed := Option.some.inj hf2
  subst hr2
  obtain ⟨hAv, hEb, -, -⟩ :=
    sloCore_fields cfg 0 f (m.hourly_burn_rate.getD [1]) p95 (latP99 lat p95)
  rw [if_neg (lt_irrefl (0 : ℤ))] at hAv
  refine ⟨hAv, ?_, ?_, ?_⟩
  · intro htar
    rw [hEb, hAv, if_pos (show (0 : ℚ) < 100 - cfg.availability_target by linarith)]
    norm_num [round2, round_eq]
  · intro hf0
    rw [hEb, hAv]
    by_cases hA : (0 : ℚ) < 100 - cfg.availability_target
    · rw [if_pos hA]
      norm_num [round2, round_eq]
    · rw [if_neg hA, if_neg (show ¬(0 : ℤ) < f by omega)]
      norm_num [round2, round_eq]
  · intro htar hfpos
    rw [hEb,
      if_neg (show ¬(0 : ℚ) < 100 - cfg.availability_target by linarith),
      if_pos hfpos]
    norm_num [round2, round_eq, max_def]

/-- C7 witness: zero total requests with five failures against the 99.9 %
target give availability 100 % and a full error budget. -/
theorem claim_c7_witness :
    (sloCore cfg0 0 5 [1] 50 50).availability_pct = 100 ∧
    (sloCore cfg0 0 5 [1] 50 50).error_budget_pct = 100 := by
  have h := claim_c7_zero_total cfg0 mZero5 5 (sloCore cfg0 0 5 [1] 50 50) rfl rfl rfl
  exact ⟨h.1, h.2.1 (by norm_num [cfg0])⟩

/-- C6 counterexample: on an eight-observation series (fewer than 14) the
previous-week window is indeed the first half, but the current-week window
is the last seven elements, not the second half, and the two windows overlap
(they share the element 4). -/
theorem claim_c6_counterexample :
    prevWindow a8 = a8.take (a8.length / 2) ∧
    currWindow a8 ≠ a8.drop (a8.length / 2) ∧
    (4 : ℚ) ∈ prevWindow a8 ∧ (4 : ℚ) ∈ currWindow a8 := by
  decide

/-- C6 amended: for fewer than 14 observations the previous-week window is
the first half of the date-sorted series; the midpoint split of the current
window (making the windows disjoint and covering) only happens below 7
observations, while for 7 to 13 observations the current window is the last
7 elements (which can overlap the first half); the evaluation itself is
total and averages exactly these windows. -/
theorem claim_c6_short_series (w b : ℚ) (data : CostData)
    (h : data.daily_costs.length < 14) :
    prevWindow ((data.daily_costs.mergeSort dateLE).map DailyCost.cost) =
      ((data.daily_costs.mergeSort dateLE).map DailyCost.cost).take
        (((data.daily_costs.mergeSort dateLE).map DailyCost.cost).length / 2) ∧
    (data.daily_costs.length < 7 →
      currWindow ((data.daily_costs.mergeSort dateLE).map DailyCost.cost) =
        ((data.daily_costs.mergeSort dateLE).map DailyCost.cost).drop
          (((data.daily_costs.mergeSort dateLE).map DailyCost.cost).length / 2) ∧
      prevWindow ((data.daily_costs.mergeSort dateLE).map DailyCost.cost) ++
        currWindow ((data.daily_costs.mergeSort dateLE).map DailyCost.cost) =
        (data.daily_costs.mergeSort dateLE).map DailyCost.cost) ∧
    (7 ≤ data.daily_costs.length →
      currWindow ((data.daily_costs.mergeSort dateLE).map DailyCost.cost) =
        ((data.daily_costs.mergeSort dateLE).map DailyCost.cost).drop
          (((data.daily_costs.mergeSort dateLE).map DailyCost.cost).length - 7)) ∧
    (CostCollector.evaluate w b data).previous_week_avg_usd =
      round2 (avgOf (prevWindow ((data.daily_costs.mergeSort dateLE).map DailyCost.cost))) ∧
    (CostCollector.evaluate w b data).current_week_avg_usd =
      round2 (avgOf (currWindow ((data.daily_costs.mergeSort dateLE).map DailyCost.cost))) := by
  have hA : ((data.daily_costs.mergeSort dateLE).map DailyCost.cost).length =
      data.daily_costs.length := by simp
  refine ⟨?_, ?_, ?_, rfl, rfl⟩
  · simp only [prevWindow]
    rw [if_neg (by omega)]
  · intro h7
    simp only [prevWindow, currWindow]
    rw [if_neg (by omega), if_neg (by omega)]
    exact ⟨rfl, List.take_append_drop _ _⟩
  · intro h7
    simp only [currWindow]
    rw [if_pos (by omega)]

/-- C6 witness: the six-observation series splits at the midpoint into two
disjoint covering halves, and the evaluation averages them. -/
theorem claim_c6_witness :
    currWindow ((d6.daily_costs.mergeSort dateLE).map DailyCost.cost) =
      ((d6.daily_costs.mergeSort dateLE).map DailyCost.cost).drop
        (((d6.daily_costs.mergeSort dateLE).map DailyCost.cost).length / 2) ∧
    prevWindow ((d6.daily_costs.mergeSort dateLE).map DailyCost.cost) ++
      currWindow ((d6.daily_costs.mergeSort dateLE).map DailyCost.cost) =
      (d6.daily_costs.mergeSort dateLE).map DailyCost.cost ∧
    (CostCollector.evaluate 20 30 d6).previous_week_avg_usd =
      round2 (avgOf (prevWindow ((d6.daily_costs.mergeSort dateLE).map DailyCost.cost))) := by
  have h := claim_c6_short_series 20 30 d6 (by simp [d6])
  exact ⟨(h.2.1 (by simp [d6])).1, (h.2.1 (by simp [d6])).2, h.2.2.2.1⟩

/-- Spike detection and the trend ladder agree on the raw week-over-week
value: this is the content of C9 stated on the post-sort core. -/
theorem evaluateAmounts_spike_trend (w b : ℚ) (amounts : List ℚ) (budget : ℚ) :
    ((evaluateAmounts w b amounts budget).spike_detected = true ↔
      w ≤ (evaluateAmounts w b amounts budget).wow_change_pct) ∧
    (w ≤ b → (evaluateAmounts w b amounts budget).trend = "spiking" →
      (evaluateAmounts w b amounts budget).spike_detected = true) := by
  set wow := wowOf (avgOf (prevWindow amounts)) (avgOf (currWindow amounts)) with hwow
  constructor
  · show decide (w ≤ wow) = true ↔ w ≤ wow
    exact decide_eq_true_iff
  · intro hwb htr
    show decide (w ≤ wow) = true
    have hts : trendOf w b wow = "spiking" := htr
    rw [trendOf] at hts
    by_cases h1 : b ≤ wow
    · exact decide_eq_true (le_trans hwb h1)
    · rw [if_neg h1] at hts
      by_cases h2 : w ≤ wow
      · exact decide_eq_true h2
      · rw [if_neg h2] at hts
        by_cases h3 : wow ≤ -10
        · rw [if_pos h3] at hts
          exact absurd hts (by decide)
        · rw [if_neg h3] at hts
          exact absurd hts (by decide)

/-- C9: `spike_detected` holds exactly when the week-over-week change
reaches the warn threshold; a "spiking" trend moreover implies
`spike_detected` whenever the warn threshold does not exceed the block
threshold (the amendment: with an inverted configuration, warn above block,
a spiking trend need not set the flag). -/
theorem claim_c9_spike_detection (w b : ℚ) (d : CostData) :
    ((CostCollector.evaluate w b d).spike_detected = true ↔
      w ≤ (CostCollector.evaluate w b d).wow_change_pct) ∧
    (w ≤ b → (CostCollector.evaluate w b d).trend = "spiking" →
      (CostCollector.evaluate w b d).spike_detected = true) :=
  evaluateAmounts_spike_trend w b
    ((d.daily_costs.mergeSort dateLE).map DailyCost.cost) d.budget_usd_monthly

/-- C9 counterexample: with warn threshold 50 and block threshold 30 the
40 % jump of `d9` yields a "spiking" trend with `spike_detected = false`,
refuting "spiking trend implies spike_detected" for arbitrary threshold
configurations. -/
theorem claim_c9_counterexample :
    (CostCollector.evaluate 50 30 d9).trend = "spiking" ∧
    (CostCollector.evaluate 50 30 d9).spike_detected = false := by
  rw [CostCollector.evaluate,
    List.mergeSort_of_sorted
      (by simp [d9, List.pairwise_cons, dateLE] :
        List.Pairwise (fun a b => dateLE a b = true) d9.daily_costs)]
  norm_num [evaluateAmounts, trendOf, wowOf, avgOf, prevWindow, currWindow,
    round2, round_eq, d9]

/-- C9 witness: with the default 20/30 thresholds, the same 40 % jump sets
the spike flag, and the flag agrees with the threshold comparison. -/
theorem claim_c9_witness :
    (CostCollector.evaluate 20 30 d9).spike_detected = true := by
  have h := claim_c9_spike_detection 20 30 d9
  apply h.2 (by norm_num)
  rw [CostCollector.evaluate,
    List.mergeSort_of_sorted
      (by simp [d9, List.pairwise_cons, dateLE] :
        List.Pairwise (fun a b => dateLE a b = true) d9.daily_costs)]
  norm_num [evaluateAmounts, trendOf, wowOf, avgOf, prevWindow, currWindow,
    round2, round_eq, d9]

/-- C10 witness: the unknown-operator condition of `pUnknownOp` is skipped
against a signal map that carries its key, and the policy then matches. -/
theorem claim_c10_witness :
    matchesConds sig0 [("error_budget_pct", ⟨"approx", CVal.scalar (Val.vnum 10)⟩)] =
      matchesConds sig0 [] ∧
    matchesPolicy pUnknownOp sig0 = some true := by
  have h := claim_c10_unknown_operator_skipped
  refine ⟨h.1 sig0 "error_budget_pct" ⟨"approx", CVal.scalar (Val.vnum 10)⟩ [] (Val.vnum 5)
    (by decide) (by decide), h.2 pUnknownOp sig0 ?_⟩
  intro kc hkc
  rw [show kc = ("error_budget_pct", (⟨"approx", CVal.scalar (Val.vnum 10)⟩ : Cond)) from
    List.mem_singleton.mp hkc]
  exact ⟨by decide, by decide⟩

end Guardrails
